import Mathlib

/-
Verification of the publish/reconciliation engine of fabric_cicd
(src/src/fabric_cicd/fabric_workspace.py), as a shallow embedding.

Python strings are modelled as Lean String; the Python membership test
(pat in s) and str.replace are modelled below on the character lists.
Fallible Python code is modelled with Except PyError.
-/

/-- Python exceptions that the embedded code can raise. -/
inductive PyError where
  | parsingError (msg : String)
  | keyError (key : String)
  | unboundLocal (name : String)
deriving DecidableEq, Repr

/-- listStarts pat s is true when pat is an initial segment of s. -/
def listStarts : List Char → List Char → Bool
  | [], _ => true
  | _ :: _, [] => false
  | p :: ps, c :: cs => p == c && listStarts ps cs

/-- charsContains pat s models the Python membership test pat in s
(true when pat occurs contiguously in s; the empty pattern occurs in every string). -/
def charsContains (pat : List Char) : List Char → Bool
  | [] => listStarts pat []
  | c :: cs => listStarts pat (c :: cs) || charsContains pat cs

/-- Python: pat in s. -/
def strContains (s pat : String) : Bool :=
  charsContains pat.data s.data

/-- One step of Python str.replace: greedy left-to-right, non-overlapping.
The fuel argument bounds the recursion; fuel equal to the length of the
string suffices because each step consumes at least one character. -/
def charsReplaceFuel (pat rep : List Char) : Nat → List Char → List Char
  | 0, s => s
  | _, [] => []
  | fuel + 1, c :: cs =>
    if !pat.isEmpty && listStarts pat (c :: cs) then
      rep ++ charsReplaceFuel pat rep fuel (cs.drop (pat.length - 1))
    else
      c :: charsReplaceFuel pat rep fuel cs

/-- Python: s.replace(pat, rep). Replacing the empty pattern inserts the
replacement at every character boundary, as CPython does. -/
def pyReplace (s pat rep : String) : String :=
  if pat.data.isEmpty then
    ⟨rep.data ++ s.data.flatMap (fun c => c :: rep.data)⟩
  else
    ⟨charsReplaceFuel pat.data rep.data s.data.length s.data⟩

/-- Python: s.endswith(pat). -/
def strEndsWith (s pat : String) : Bool :=
  listStarts pat.data.reverse s.data.reverse

/-- One payload unit belonging to an Item (fabric_cicd._common._item.File,
as used by fabric_workspace.py: relative_path, file_path, type, contents). -/
structure File where
  relative_path : String
  file_path : String
  ftype : String
  contents : String
deriving DecidableEq, Repr

/-- One deployable unit (fabric_cicd._common._item.Item, as constructed by
fabric_workspace.py: type, name, description, guid, logical_id, path and
the collected item files). The source attribute named type is called itype
here because type is reserved in Lean. -/
structure Item where
  itype : String
  name : String
  description : String
  guid : String
  logical_id : String := ""
  path : String := ""
  item_files : List File := []
deriving DecidableEq, Repr

/-- Python dict lookup d[k] that yields none instead of raising KeyError. -/
def dictGet {α : Type} (d : List (String × α)) (k : String) : Option α :=
  match d.find? (fun p => p.1 == k) with
  | some p => some p.2
  | none => none

/-- Python dict assignment d[k] = v when k is already present: the entry is
replaced in place, insertion order preserved. -/
def dictSet {α : Type} (d : List (String × α)) (k : String) (v : α) : List (String × α) :=
  d.map (fun p => if p.1 == k then (k, v) else p)

/-- Python dict assignment d[k] = v: replaces an existing entry or appends
a new one at the end (dict insertion order). -/
def dictSetD {α : Type} (d : List (String × α)) (k : String) (v : α) : List (String × α) :=
  if (d.find? (fun p => p.1 == k)).isSome then dictSet d k v else d ++ [(k, v)]

/-- The error message of _replace_logical_ids (fabric_workspace.py line 224). -/
def logicalIdNotDeployedMsg (lid : String) : String :=
  "Cannot replace logical ID \x27" ++ lid ++ "\x27 as referenced item is not yet deployed."

/-- _replace_logical_ids (fabric_workspace.py lines 210-228): iterates over
every repository item in insertion order; when the logical id of an item
occurs in the file, an empty guid raises ParsingError, otherwise every
occurrence of the logical id is replaced by the guid. -/
def replaceLogicalIds (items : List Item) (raw_file : String) : Except PyError String :=
  match items with
  | [] => .ok raw_file
  | item :: rest =>
    if strContains raw_file item.logical_id then
      if item.guid = "" then
        .error (.parsingError (logicalIdNotDeployedMsg item.logical_id))
      else
        replaceLogicalIds rest (pyReplace raw_file item.logical_id item.guid)
    else
      replaceLogicalIds rest raw_file

/-- One record of the new find_replace parameter structure
(fabric_workspace.py lines 317-322): a find value, an environment-keyed
replacement map, and three optional scoping fields. The file_path field
holds the value after process_input_path normalisation. -/
structure FindReplaceRule where
  find_value : String
  replace_value : List (String × String)
  item_type : Option String := none
  item_name : Option String := none
  file_path : Option String := none
deriving DecidableEq, Repr

/-- Modelled from the spec: the optional scoping comparison done by
check_replacement of fabric_cicd._parameter._utils (that module is not part
of the sources here). Absence of a scope constraint applies universally. -/
def optMatches : Option String → String → Bool
  | none, _ => true
  | some v, s => v == s

/-- Modelled from the spec: check_replacement of
fabric_cicd._parameter._utils (not part of the sources here). Quoting the
spec: an optional scoping predicate on item type/name/path matches when
specified (absence of a scope constraint = applies universally). -/
def checkReplacement (input_type input_name input_path : Option String)
    (item_type item_name file_path : String) : Bool :=
  optMatches input_type item_type && optMatches input_name item_name &&
    optMatches input_path file_path

/-- The find_replace section of the environment-parameter table. The two
shapes distinguished by check_parameter_structure of
fabric_cicd._parameter._utils (new: list of records; old: mapping from
literal token to environment map) are modelled structurally; absent means
find_replace is not present in the table at all. -/
inductive FindReplaceTable where
  | absent
  | newStructure (rules : List FindReplaceRule)
  | oldStructure (entries : List (String × List (String × String)))
deriving DecidableEq, Repr

/-- The new-structure loop of _replace_parameters (fabric_workspace.py
lines 316-329): a rule fires when its find value occurs in the content,
the active environment has a replacement, and the scoping predicate
matches; then every occurrence is replaced. -/
def applyFindReplaceNew (env item_type item_name file_path : String) :
    List FindReplaceRule → String → String
  | [], raw => raw
  | r :: rest, raw =>
    if strContains raw r.find_value && (dictGet r.replace_value env).isSome &&
        checkReplacement r.item_type r.item_name r.file_path item_type item_name file_path then
      applyFindReplaceNew env item_type item_name file_path rest
        (pyReplace raw r.find_value ((dictGet r.replace_value env).getD ""))
    else
      applyFindReplaceNew env item_type item_name file_path rest raw

/-- The old-structure loop of _replace_parameters (fabric_workspace.py
lines 333-338). -/
def applyFindReplaceOld (env : String) :
    List (String × List (String × String)) → String → String
  | [], raw => raw
  | (key, pd) :: rest, raw =>
    if strContains raw key && (dictGet pd env).isSome then
      applyFindReplaceOld env rest (pyReplace raw key ((dictGet pd env).getD ""))
    else
      applyFindReplaceOld env rest raw

/-- _replace_parameters (fabric_workspace.py lines 257-340) restricted to
its find_replace handling. The VariableLibrary-specific branch (lines
278-309) depends on replace_key_value of fabric_cicd._parameter._utils and
on JSON decoding, both outside the sources here, and no property below
concerns it; items of other types never enter that branch. -/
def replaceParameters (table : FindReplaceTable) (env item_type item_name file_path raw : String) :
    String :=
  match table with
  | .absent => raw
  | .newStructure rules => applyFindReplaceNew env item_type item_name file_path rules raw
  | .oldStructure entries => applyFindReplaceOld env entries raw

/-- The default placeholder workspace id
(constants.DEFAULT_WORKSPACE_ID, quoted in the _replace_workspace_ids
docstring). -/
def defaultWorkspaceId : String := "00000000-0000-0000-0000-000000000000"

/-- One regex match of WORKSPACE_ID_REFERENCE_REGEX: the whole matched text
(group 0) and the captured workspace id (group 2). The regex itself lives
in fabric_cicd.constants, outside the sources here; its match decomposition
is therefore kept abstract. -/
structure WsMatch where
  full : String
  group2 : String
deriving DecidableEq, Repr

/-- A raw file decomposed by the workspace-id reference regex into literal
text outside any match and the matches themselves, in order. Modelled from
the spec: the regex constant is not part of the sources here. -/
inductive ContentPart where
  | lit (s : String)
  | m (mt : WsMatch)
deriving DecidableEq, Repr

/-- The replacement lambda of _replace_workspace_ids (fabric_workspace.py
lines 353-357): if group 2 is the default workspace id, replace the default
id inside the matched text with the target workspace id, otherwise return
the matched text unchanged. -/
def subWorkspaceId (workspace_id : String) (mt : WsMatch) : String :=
  if mt.group2 = defaultWorkspaceId then
    pyReplace mt.full defaultWorkspaceId workspace_id
  else
    mt.full

/-- The text of a content part before any rewriting. -/
def partText : ContentPart → String
  | .lit s => s
  | .m mt => mt.full

/-- Concatenation of a list of strings (re.sub reassembles the content from
the rewritten matches and the text between them). -/
def strConcat : List String → String
  | [] => ""
  | s :: rest => s ++ strConcat rest

/-- The original content: concatenation of all parts unchanged. -/
def renderParts (parts : List ContentPart) : String :=
  strConcat (parts.map partText)

/-- _replace_workspace_ids (fabric_workspace.py lines 342-359): re.sub over
the decomposed content, applying the replacement lambda to every match and
keeping the text between matches. -/
def replaceWorkspaceIds (workspace_id : String) (parts : List ContentPart) : String :=
  strConcat (parts.map fun p =>
    match p with
    | .lit s => s
    | .m mt => subWorkspaceId workspace_id mt)

/-- The state of one FabricWorkspace instance, restricted to the fields the
publish/unpublish engine reads. shell_only_types stands for
constants.SHELL_ONLY_PUBLISH and ws_id_matches for the match decomposition
of constants.WORKSPACE_ID_REFERENCE_REGEX; the constants module is outside
the sources here, so both are carried as state. -/
structure Workspace where
  workspace_id : String
  base_api_url : String
  environment : String
  repository_items : List (String × List (String × Item))
  deployed_items : List (String × List (String × Item))
  environment_parameter : FindReplaceTable
  publish_item_name_exclude_regex : Option (String → Bool) := none
  shell_only_types : List String
  ws_id_matches : String → List ContentPart

/-- Flattening of repository_items.values() followed by .values(), in
insertion order, as iterated by _replace_logical_ids. -/
def allRepositoryItems (repo : List (String × List (String × Item))) : List Item :=
  repo.flatMap (fun p => p.2.map (fun q => q.2))

/-- Processing of one file inside _publish_item (fabric_workspace.py lines
437-443): text files first pass through the optional custom processor, then
every text file whose path does not end in .platform passes through the
three-stage rewrite pipeline; binary files pass through untouched. -/
def pipelineFile (ws : Workspace) (item : Item)
    (funcProcessFile : Option (Item → File → String)) (f : File) :
    Except PyError File :=
  if f.ftype = "text" then
    let c0 := match funcProcessFile with
      | some g => g item f
      | none => f.contents
    if strEndsWith f.file_path ".platform" then
      .ok { f with contents := c0 }
    else
      match replaceLogicalIds (allRepositoryItems ws.repository_items) c0 with
      | .error e => .error e
      | .ok c1 =>
        let c2 := replaceParameters ws.environment_parameter ws.environment
          item.itype item.name f.file_path c1
        let c3 := replaceWorkspaceIds ws.workspace_id (ws.ws_id_matches c2)
        .ok { f with contents := c3 }
  else
    .ok f

/-- The item_payload loop of _publish_item (fabric_workspace.py lines
435-444): files matching the exclude-path regex are dropped, every other
file is processed and its payload part collected in order. The payload part
is modelled as the processed File record (File.base64_payload of the
external item module is a transport encoding of it). -/
def buildParts (ws : Workspace) (item : Item)
    (funcProcessFile : Option (Item → File → String))
    (excludeMatch : String → Bool) : List File → Except PyError (List File)
  | [] => .ok []
  | f :: fs =>
    if excludeMatch f.relative_path then
      buildParts ws item funcProcessFile excludeMatch fs
    else
      match pipelineFile ws item funcProcessFile f with
      | .error e => .error e
      | .ok f2 =>
        match buildParts ws item funcProcessFile excludeMatch fs with
        | .error e => .error e
        | .ok rest => .ok (f2 :: rest)

/-- A request body sent to the Fabric API, with the fields _publish_item
assembles. The source key named type is called itemType here. -/
structure RequestBody where
  displayName : Option String := none
  itemType : Option String := none
  creationPayload : Option String := none
  definition : Option (List File) := none
deriving DecidableEq, Repr

/-- One invocation of the Endpoint collaborator. -/
inductive ApiCall where
  | post (url : String) (body : RequestBody)
  | patch (url : String) (body : RequestBody)
  | delete (url : String)
deriving DecidableEq, Repr

/-- The outcome of one _publish_item call: the repository_items collection
after the call and the Endpoint invocations issued, in order. -/
structure PublishResult where
  repository_items : List (String × List (String × Item))
  calls : List ApiCall
deriving DecidableEq, Repr

/-- Python truthiness of kwargs.get("creation_payload"): absent or empty is
falsy. -/
def cpTruthy : Option String → Bool
  | none => false
  | some s => s ≠ ""

/-- The body of _publish_item after the exclusion-regex check
(fabric_workspace.py lines 418-488). newGuid is the id the server returns
from the create call. Retry ceilings and logging are not modelled: they do
not affect which calls are issued or the resulting state. The local
variable definition_body is assigned only in the file-based-definition
branch and is modelled as an Option; dereferencing it unassigned is the
Python UnboundLocalError. -/
def publishItemCore (ws : Workspace) (item_name item_type : String)
    (excludeMatch : String → Bool)
    (funcProcessFile : Option (Item → File → String))
    (creation_payload : Option String) (newGuid : String) :
    Except PyError PublishResult :=
  match dictGet ws.repository_items item_type with
  | none => .error (.keyError item_type)
  | some inner =>
    match dictGet inner item_name with
    | none => .error (.keyError item_name)
    | some item =>
      let metadata_body : RequestBody :=
        { displayName := some item_name, itemType := some item_type }
      let shell_only_publish := ws.shell_only_types.contains item_type
      let bodiesE : Except PyError (RequestBody × Option RequestBody) :=
        if cpTruthy creation_payload then
          .ok ({ metadata_body with creationPayload := creation_payload }, none)
        else if shell_only_publish then
          .ok (metadata_body, none)
        else
          match buildParts ws item funcProcessFile excludeMatch item.item_files with
          | .error e => .error e
          | .ok parts =>
            .ok ({ metadata_body with definition := some parts },
                 some { definition := some parts })
      match bodiesE with
      | .error e => .error e
      | .ok (combined_body, definition_body) =>
        if item.guid = "" then
          .ok { repository_items :=
                  dictSet ws.repository_items item_type
                    (dictSet inner item_name { item with guid := newGuid }),
                calls := [ApiCall.post (ws.base_api_url ++ "/items") combined_body] }
        else if shell_only_publish = false then
          match definition_body with
          | none => .error (.unboundLocal "definition_body")
          | some db =>
            .ok { repository_items := ws.repository_items,
                  calls := [ApiCall.post
                    (ws.base_api_url ++ "/items/" ++ item.guid ++
                      "/updateDefinition?updateMetadata=True") db] }
        else
          .ok { repository_items := ws.repository_items,
                calls := [ApiCall.patch (ws.base_api_url ++ "/items/" ++ item.guid)
                  { metadata_body with itemType := none }] }

/-- _publish_item (fabric_workspace.py lines 393-488): when the
publish_item_name_exclude_regex is set and matches the item name, the whole
item is skipped before any processing. -/
def publishItem (ws : Workspace) (item_name item_type : String)
    (excludeMatch : String → Bool)
    (funcProcessFile : Option (Item → File → String))
    (creation_payload : Option String) (newGuid : String) :
    Except PyError PublishResult :=
  match ws.publish_item_name_exclude_regex with
  | some pat =>
    if pat item_name then
      .ok { repository_items := ws.repository_items, calls := [] }
    else
      publishItemCore ws item_name item_type excludeMatch funcProcessFile
        creation_payload newGuid
  | none =>
    publishItemCore ws item_name item_type excludeMatch funcProcessFile
      creation_payload newGuid

/-- _unpublish_item (fabric_workspace.py lines 490-509). The guid lookup at
line 498 happens before the try block; the try/except surrounds only the
DELETE invocation, whose outcome is the deleteResult argument: any
exception from it is logged as a warning and swallowed. On success the
issued calls are returned. -/
def unpublishItem (ws : Workspace) (item_name item_type : String)
    (deleteResult : Except String Unit) : Except PyError (List ApiCall) :=
  match dictGet ws.deployed_items item_type with
  | none => .error (.keyError item_type)
  | some inner =>
    match dictGet inner item_name with
    | none => .error (.keyError item_name)
    | some item =>
      match deleteResult with
      | .ok _ => .ok [ApiCall.delete (ws.base_api_url ++ "/items/" ++ item.guid)]
      | .error _ => .ok [ApiCall.delete (ws.base_api_url ++ "/items/" ++ item.guid)]

/-- The fields of a parsed .platform marker file that
_refresh_repository_items reads: metadata.type, metadata.displayName,
metadata.description and config.logicalId, each possibly absent. The field
named type in the source is called mtype here. -/
structure PlatformMeta where
  mtype : Option String := none
  displayName : Option String := none
  description : Option String := none
  logicalId : Option String := none
deriving DecidableEq, Repr

/-- The outcome of opening and JSON-decoding a .platform file: the file is
missing (FileNotFoundError), is not valid JSON (json.JSONDecodeError), or
parses to metadata. -/
inductive PlatformParse where
  | missing
  | malformed
  | parsed (meta : PlatformMeta)
deriving DecidableEq, Repr

/-- One directory visited by os.walk inside _refresh_repository_items: its
path, the names of the files directly inside it, the names of its
subdirectories, and the parse outcome of its .platform file. iterdir()
yields every file and subdirectory of the directory. -/
structure FsDir where
  path : String
  files : List String
  subdirs : List String
  platform : PlatformParse
deriving DecidableEq, Repr

/-- The body of the _refresh_repository_items loop for one directory
(fabric_workspace.py lines 146-187). A directory without a .platform file
is ignored. The empty-directory check at line 151 tests
not any(directory.iterdir()). The try/except at lines 156-164 catches
FileNotFoundError and json.JSONDecodeError, builds a ParsingError object
without raising it, and control continues to line 167, which dereferences
the never-assigned local item_metadata: the run therefore stops with
UnboundLocalError, not ParsingError. A missing metadata.type or
metadata.displayName raises ParsingError (lines 167-169); a missing
config.logicalId raises KeyError (line 174). collect_item_files belongs to
the external item module and is not modelled, so item_files stays empty. -/
def processDir (deployed : List (String × List (String × Item)))
    (repo : List (String × List (String × Item))) (d : FsDir) :
    Except PyError (List (String × List (String × Item))) :=
  if d.files.contains ".platform" then
    if d.files.isEmpty && d.subdirs.isEmpty then
      .ok repo
    else
      match d.platform with
      | .missing => .error (.unboundLocal "item_metadata")
      | .malformed => .error (.unboundLocal "item_metadata")
      | .parsed meta =>
        match meta.mtype, meta.displayName with
        | some item_type, some item_name =>
          match meta.logicalId with
          | none => .error (.keyError "logicalId")
          | some item_logical_id =>
            let item_guid :=
              (((dictGet deployed item_type).bind
                (fun inn => dictGet inn item_name)).map Item.guid).getD ""
            let newItem : Item :=
              { itype := item_type, name := item_name,
                description := meta.description.getD "", guid := item_guid,
                logical_id := item_logical_id, path := d.path, item_files := [] }
            .ok (dictSetD repo item_type
              (dictSetD ((dictGet repo item_type).getD []) item_name newItem))
        | _, _ =>
          .error (.parsingError
            ("displayName & type are required in " ++ d.path ++ "/.platform"))
  else
    .ok repo

/-- The fold of _refresh_repository_items over the os.walk sequence,
starting from an empty repository_items dictionary (fabric_workspace.py
lines 140-187). -/
def refreshRepositoryItemsFrom (deployed : List (String × List (String × Item)))
    (repo : List (String × List (String × Item))) :
    List FsDir → Except PyError (List (String × List (String × Item)))
  | [] => .ok repo
  | d :: ds =>
    match processDir deployed repo d with
    | .error e => .error e
    | .ok repo2 => refreshRepositoryItemsFrom deployed repo2 ds

/-- _refresh_repository_items (fabric_workspace.py lines 140-187). -/
def refreshRepositoryItems (deployed : List (String × List (String × Item)))
    (dirs : List FsDir) : Except PyError (List (String × List (String × Item))) :=
  refreshRepositoryItemsFrom deployed [] dirs

/-- Whether a run outcome is a raised ParsingError. -/
def isParsingError {α : Type} : Except PyError α → Bool
  | .error (.parsingError _) => true
  | _ => false

instance {ε α : Type} [DecidableEq ε] [DecidableEq α] : DecidableEq (Except ε α) := fun a b =>
  match a, b with
  | .ok x, .ok y =>
    if h : x = y then .isTrue (by rw [h]) else .isFalse (by intro hc; cases hc; exact h rfl)
  | .error x, .error y =>
    if h : x = y then .isTrue (by rw [h]) else .isFalse (by intro hc; cases hc; exact h rfl)
  | .ok _, .error _ => .isFalse (by intro hc; cases hc)
  | .error _, .ok _ => .isFalse (by intro hc; cases hc)

theorem dictGet_dictSet_self {α : Type} (d : List (String × α)) (k : String) (w : α)
    (h : (dictGet d k).isSome = true) : dictGet (dictSet d k w) k = some w := by
  induction d with
  | nil => simp [dictGet] at h
  | cons p rest ih =>
    by_cases hk : p.1 = k
    · simp [dictGet, dictSet, List.find?, hk]
    · have hne : (p.1 == k) = false := by
        simpa using hk
      have h2 : (dictGet rest k).isSome = true := by
        simpa [dictGet, List.find?, hne] using h
      have ih2 := ih h2
      simpa [dictGet, dictSet, List.find?, hne] using ih2

theorem replaceLogicalIds_skip (items : List Item) (c : String)
    (h : ∀ j ∈ items, strContains c j.logical_id = false) :
    replaceLogicalIds items c = .ok c := by
  induction items with
  | nil => rfl
  | cons j rest ih =>
    have hj : strContains c j.logical_id = false := h j (List.mem_cons_self j rest)
    have hrest : ∀ x ∈ rest, strContains c x.logical_id = false :=
      fun x hx => h x (List.mem_cons_of_mem j hx)
    simp [replaceLogicalIds, hj, ih hrest]

theorem applyFindReplaceNew_skip (env item_type item_name file_path raw : String)
    (rules : List FindReplaceRule)
    (h : ∀ r ∈ rules,
      (strContains raw r.find_value && (dictGet r.replace_value env).isSome &&
        checkReplacement r.item_type r.item_name r.file_path item_type item_name file_path) = false) :
    applyFindReplaceNew env item_type item_name file_path rules raw = raw := by
  induction rules with
  | nil => rfl
  | cons r rest ih =>
    have hr := h r (List.mem_cons_self r rest)
    have hrest : ∀ x ∈ rest, _ := fun x hx => h x (List.mem_cons_of_mem r hx)
    simp [applyFindReplaceNew, hr, ih hrest]

/-- C2: for a text-file content in which the logical id of a repository
item occurs (and which the items before it in iteration order leave
alone), _replace_logical_ids raises ParsingError when that item has an
empty guid, and otherwise replaces every occurrence of the logical id with
the guid (pyReplace is the Python str.replace of all occurrences), the
remaining items then matching nothing. -/
theorem logical_id_resolution (pre post : List Item) (item : Item) (raw : String)
    (hocc : strContains raw item.logical_id = true)
    (hpre : ∀ j ∈ pre, strContains raw j.logical_id = false) :
    (item.guid = "" →
      replaceLogicalIds (pre ++ item :: post) raw =
        .error (.parsingError (logicalIdNotDeployedMsg item.logical_id))) ∧
    (item.guid ≠ "" →
      (∀ j ∈ post, strContains (pyReplace raw item.logical_id item.guid) j.logical_id = false) →
      replaceLogicalIds (pre ++ item :: post) raw =
        .ok (pyReplace raw item.logical_id item.guid)) := by
  induction pre with
  | nil =>
    constructor
    · intro hg
      simp [replaceLogicalIds, hocc, hg]
    · intro hg hpost
      simp [replaceLogicalIds, hocc, hg, replaceLogicalIds_skip post _ hpost]
  | cons j rest ih =>
    have hj : strContains raw j.logical_id = false := hpre j (List.mem_cons_self j rest)
    have hrest : ∀ x ∈ rest, strContains raw x.logical_id = false :=
      fun x hx => hpre x (List.mem_cons_of_mem j hx)
    have ih2 := ih hrest
    constructor
    · intro hg
      simpa [replaceLogicalIds, hj] using ih2.1 hg
    · intro hg hpost
      simpa [replaceLogicalIds, hj] using ih2.2 hg hpost

theorem logical_id_resolution_witness :
    strContains "x lidA y" "lidA" = true ∧
    replaceLogicalIds
      [{ itype := "Notebook", name := "A", description := "", guid := "", logical_id := "lidA" }]
      "x lidA y" =
      .error (.parsingError (logicalIdNotDeployedMsg "lidA")) :=
  ⟨by decide,
   (logical_id_resolution [] []
     { itype := "Notebook", name := "A", description := "", guid := "", logical_id := "lidA" }
     "x lidA y" (by decide) (by simp)).1 rfl⟩

/-- C6: with the new find_replace structure, a rule whose firing condition
(find token present, environment entry present, scoping predicate true)
fails never changes the content, whatever other rules are present, and a
rule whose condition holds replaces every occurrence of the token with the
environment-specific value. -/
theorem find_replace_new_scoping (env item_type item_name file_path raw : String) :
    (∀ rules : List FindReplaceRule,
      (∀ r ∈ rules,
        (strContains raw r.find_value && (dictGet r.replace_value env).isSome &&
          checkReplacement r.item_type r.item_name r.file_path item_type item_name file_path) = false) →
      replaceParameters (.newStructure rules) env item_type item_name file_path raw = raw) ∧
    (∀ (r : FindReplaceRule) (v : String),
      strContains raw r.find_value = true →
      dictGet r.replace_value env = some v →
      checkReplacement r.item_type r.item_name r.file_path item_type item_name file_path = true →
      replaceParameters (.newStructure [r]) env item_type item_name file_path raw =
        pyReplace raw r.find_value v) := by
  constructor
  · intro rules h
    exact applyFindReplaceNew_skip env item_type item_name file_path raw rules h
  · intro r v hf hd hc
    simp [replaceParameters, applyFindReplaceNew, hf, hd, hc]

def ruleScopedNotebook : FindReplaceRule :=
  { find_value := "TOKEN", replace_value := [("PPE", "VAL")], item_type := some "Notebook" }

theorem find_replace_new_scoping_witness :
    replaceParameters (.newStructure [ruleScopedNotebook]) "PPE" "DataPipeline" "P1" "f.json"
      "a TOKEN b" = "a TOKEN b" ∧
    replaceParameters (.newStructure [ruleScopedNotebook]) "PPE" "Notebook" "N1" "f.json"
      "a TOKEN b" = pyReplace "a TOKEN b" "TOKEN" "VAL" :=
  ⟨(find_replace_new_scoping "PPE" "DataPipeline" "P1" "f.json" "a TOKEN b").1
      [ruleScopedNotebook] (by decide),
   (find_replace_new_scoping "PPE" "Notebook" "N1" "f.json" "a TOKEN b").2
      ruleScopedNotebook "VAL" (by decide) (by decide) (by decide)⟩

/-- C4: _replace_workspace_ids rewrites a matched workspace-id reference
only when its captured workspace id is the all-zero default: content whose
matches all carry a concrete (non-default) workspace id is returned
character for character unchanged, while a match carrying the default id
has the default id replaced by the target workspace id. -/
theorem workspace_id_rewrite_selective (workspace_id : String) (parts : List ContentPart)
    (hnd : ∀ mt : WsMatch, ContentPart.m mt ∈ parts → mt.group2 ≠ defaultWorkspaceId) :
    replaceWorkspaceIds workspace_id parts = renderParts parts ∧
    (∀ mt : WsMatch, mt.group2 = defaultWorkspaceId →
      subWorkspaceId workspace_id mt = pyReplace mt.full defaultWorkspaceId workspace_id) := by
  constructor
  · induction parts with
    | nil => rfl
    | cons p rest ih =>
      have hrest : ∀ mt : WsMatch, ContentPart.m mt ∈ rest → mt.group2 ≠ defaultWorkspaceId :=
        fun mt hm => hnd mt (List.mem_cons_of_mem p hm)
      have ihr := ih hrest
      simp only [replaceWorkspaceIds, renderParts] at ihr
      cases p with
      | lit s =>
        simp only [replaceWorkspaceIds, renderParts, List.map_cons, strConcat, partText]
        rw [ihr]
      | m mt =>
        have hmt : mt.group2 ≠ defaultWorkspaceId := hnd mt (List.mem_cons_self _ rest)
        have hhead : subWorkspaceId workspace_id mt = mt.full := by
          simp [subWorkspaceId, hmt]
        simp only [replaceWorkspaceIds, renderParts, List.map_cons, strConcat, partText]
        rw [ihr, hhead]
  · intro mt hmt
    simp [subWorkspaceId, hmt]

def foreignMatch : WsMatch :=
  { full := "w/deadbeef-0000-4000-8000-111111111111/x",
    group2 := "deadbeef-0000-4000-8000-111111111111" }

def placeholderMatch : WsMatch :=
  { full := "w/00000000-0000-0000-0000-000000000000/x",
    group2 := "00000000-0000-0000-0000-000000000000" }

theorem workspace_id_rewrite_selective_witness :
    replaceWorkspaceIds "tgt-ws" [ContentPart.lit "pre ", ContentPart.m foreignMatch] =
      renderParts [ContentPart.lit "pre ", ContentPart.m foreignMatch] ∧
    subWorkspaceId "tgt-ws" placeholderMatch =
      pyReplace placeholderMatch.full defaultWorkspaceId "tgt-ws" :=
  ⟨(workspace_id_rewrite_selective "tgt-ws"
      [ContentPart.lit "pre ", ContentPart.m foreignMatch]
      (by intro mt hm; simp at hm; subst hm; decide)).1,
   (workspace_id_rewrite_selective "tgt-ws" [] (by simp)).2 placeholderMatch rfl⟩

/-- C7: for an item present in the Deployed Items collection, whatever the
outcome of the DELETE invocation (success or any raised exception),
_unpublish_item swallows the failure and returns normally with the DELETE
call it attempted, so the caller can proceed to the next item. -/
theorem unpublish_swallows_delete_failure (ws : Workspace) (item_name item_type : String)
    (inner : List (String × Item)) (item : Item) (deleteResult : Except String Unit)
    (hty : dictGet ws.deployed_items item_type = some inner)
    (hit : dictGet inner item_name = some item) :
    unpublishItem ws item_name item_type deleteResult =
      .ok [ApiCall.delete (ws.base_api_url ++ "/items/" ++ item.guid)] := by
  cases deleteResult <;> simp [unpublishItem, hty, hit]

def itemD : Item := { itype := "Notebook", name := "D", description := "", guid := "g-d" }

def wsD : Workspace :=
  { workspace_id := "tgt", base_api_url := "api/v1/workspaces/tgt", environment := "N/A",
    repository_items := [], deployed_items := [("Notebook", [("D", itemD)])],
    environment_parameter := .absent, shell_only_types := [],
    ws_id_matches := fun s => [ContentPart.lit s] }

theorem unpublish_swallows_delete_failure_witness :
    unpublishItem wsD "D" "Notebook" (.error "HTTP 500") =
      .ok [ApiCall.delete (wsD.base_api_url ++ "/items/" ++ itemD.guid)] :=
  unpublish_swallows_delete_failure wsD "D" "Notebook" [("D", itemD)] itemD
    (.error "HTTP 500") rfl rfl

/-- C10: the guid lookup of _unpublish_item happens before its try block,
so a (type, name) pair absent from the Deployed Items collection raises an
uncaught KeyError, whatever the delete outcome would have been; the
best-effort handling covers only the DELETE invocation. -/
theorem unpublish_missing_key_uncaught (ws : Workspace) (item_name item_type : String)
    (deleteResult : Except String Unit) :
    (dictGet ws.deployed_items item_type = none →
      unpublishItem ws item_name item_type deleteResult = .error (.keyError item_type)) ∧
    (∀ inner, dictGet ws.deployed_items item_type = some inner →
      dictGet inner item_name = none →
      unpublishItem ws item_name item_type deleteResult = .error (.keyError item_name)) := by
  constructor
  · intro h
    simp [unpublishItem, h]
  · intro inner h1 h2
    simp [unpublishItem, h1, h2]

theorem unpublish_missing_key_uncaught_witness :
    unpublishItem wsD "Z" "Notebook" (.error "HTTP 500") = .error (.keyError "Z") :=
  (unpublish_missing_key_uncaught wsD "Z" "Notebook" (.error "HTTP 500")).2
    [("D", itemD)] rfl rfl

def malformedDir : FsDir :=
  { path := "repo/ItemA.Notebook", files := [".platform"], subdirs := [],
    platform := .malformed }

/-- C3: a .platform marker file that is missing or fails to parse as JSON
makes the repository scan fail with UnboundLocalError on the never-assigned
local item_metadata, not with the ParsingError the code builds and drops:
the claimed ParsingError never surfaces. -/
theorem refresh_malformed_platform_unbound_local :
    refreshRepositoryItems [] [malformedDir] = .error (.unboundLocal "item_metadata") ∧
    isParsingError (refreshRepositoryItems [] [malformedDir]) = false ∧
    refreshRepositoryItems [] [{ malformedDir with platform := .missing }] =
      .error (.unboundLocal "item_metadata") :=
  ⟨rfl, rfl, rfl⟩

def markerOnlyDir : FsDir :=
  { path := "repo/N1.Notebook", files := [".platform"], subdirs := [],
    platform := .parsed { mtype := some "Notebook", displayName := some "N1",
                          logicalId := some "lid-n1" } }

/-- C8: a directory that contains the metadata marker file and nothing
else is not skipped: it produces a repository item. The emptiness test of
line 151 can never hold once the marker file is known to be inside the
directory, so the skip-with-warning branch is unreachable. -/
theorem marker_only_dir_not_skipped :
    refreshRepositoryItems [] [markerOnlyDir] =
      .ok [("Notebook", [("N1",
        { itype := "Notebook", name := "N1", description := "", guid := "",
          logical_id := "lid-n1", path := "repo/N1.Notebook", item_files := [] })])] ∧
    (∀ d : FsDir, d.files.contains ".platform" = true →
      (d.files.isEmpty && d.subdirs.isEmpty) = false) :=
  ⟨rfl, fun d hd => by
    cases hf : d.files with
    | nil => rw [hf] at hd; simp at hd
    | cons a as => simp [hf]⟩

theorem marker_only_dir_not_skipped_witness :
    markerOnlyDir.files.contains ".platform" = true ∧
    (markerOnlyDir.files.isEmpty && markerOnlyDir.subdirs.isEmpty) = false :=
  ⟨by decide, marker_only_dir_not_skipped.2 markerOnlyDir (by decide)⟩

/-- C5: republishing an already-deployed item of a shell-only type issues
exactly one PATCH to items/guid whose body keeps displayName and has the
type field removed, and no POST of any kind (in particular none to the
updateDefinition endpoint). -/
theorem shell_only_republish_patch (ws : Workspace) (item_name item_type : String)
    (inner : List (String × Item)) (item : Item)
    (excludeMatch : String → Bool) (funcProcessFile : Option (Item → File → String))
    (creation_payload : Option String) (newGuid : String)
    (hre : ws.publish_item_name_exclude_regex = none)
    (hty : dictGet ws.repository_items item_type = some inner)
    (hit : dictGet inner item_name = some item)
    (hguid : item.guid ≠ "")
    (hshell : ws.shell_only_types.contains item_type = true) :
    publishItem ws item_name item_type excludeMatch funcProcessFile creation_payload newGuid =
      .ok { repository_items := ws.repository_items,
            calls := [ApiCall.patch (ws.base_api_url ++ "/items/" ++ item.guid)
              { displayName := some item_name, itemType := none }] } ∧
    (∀ (url : String) (b : RequestBody),
      ApiCall.post url b ∉
        [ApiCall.patch (ws.base_api_url ++ "/items/" ++ item.guid)
          { displayName := some item_name, itemType := none }]) := by
  have hshell2 : item_type ∈ ws.shell_only_types := by
    simpa using hshell
  constructor
  · cases hcp : cpTruthy creation_payload <;>
      simp [publishItem, hre, publishItemCore, hty, hit, hcp, hshell2, hguid]
  · intro url b hmem
    simp at hmem

def itemS : Item := { itype := "Environment", name := "E", description := "", guid := "g-e" }

def wsS : Workspace :=
  { workspace_id := "tgt", base_api_url := "api/v1/workspaces/tgt", environment := "N/A",
    repository_items := [("Environment", [("E", itemS)])], deployed_items := [],
    environment_parameter := .absent, shell_only_types := ["Environment"],
    ws_id_matches := fun s => [ContentPart.lit s] }

theorem shell_only_republish_patch_witness :
    publishItem wsS "E" "Environment" (fun _ => false) none none "zz" =
      .ok { repository_items := wsS.repository_items,
            calls := [ApiCall.patch (wsS.base_api_url ++ "/items/" ++ itemS.guid)
              { displayName := some "E", itemType := none }] } :=
  (shell_only_republish_patch wsS "E" "Environment" [("E", itemS)] itemS
    (fun _ => false) none none "zz" rfl rfl rfl (by decide) rfl).1

/-- C9: supplying a creation payload for an item whose guid is non-empty
and whose type is not shell-only makes _publish_item fail with
UnboundLocalError on definition_body, which is assigned only in the
file-based-definition branch; when the guid is empty (payload supplied only
for not-yet-deployed items) the create branch runs and that error is
unreachable. -/
theorem creation_payload_republish_unbound_local (ws : Workspace)
    (item_name item_type : String) (inner : List (String × Item)) (item : Item)
    (excludeMatch : String → Bool) (funcProcessFile : Option (Item → File → String))
    (creation_payload : Option String) (newGuid : String)
    (hre : ws.publish_item_name_exclude_regex = none)
    (hty : dictGet ws.repository_items item_type = some inner)
    (hit : dictGet inner item_name = some item)
    (hcp : cpTruthy creation_payload = true) :
    (item.guid ≠ "" → ws.shell_only_types.contains item_type = false →
      publishItem ws item_name item_type excludeMatch funcProcessFile creation_payload newGuid =
        .error (.unboundLocal "definition_body")) ∧
    (item.guid = "" →
      publishItem ws item_name item_type excludeMatch funcProcessFile creation_payload newGuid =
        .ok { repository_items := dictSet ws.repository_items item_type
                (dictSet inner item_name { item with guid := newGuid }),
              calls := [ApiCall.post (ws.base_api_url ++ "/items")
                { displayName := some item_name, itemType := some item_type,
                  creationPayload := creation_payload }] }) := by
  constructor
  · intro hg hsh
    have hsh2 : item_type ∉ ws.shell_only_types := by
      simpa using hsh
    simp [publishItem, hre, publishItemCore, hty, hit, hcp, hg, hsh2]
  · intro hg
    simp [publishItem, hre, publishItemCore, hty, hit, hcp, hg]

def itemC9 : Item := { itype := "Lakehouse", name := "L", description := "", guid := "g-l" }

def wsC9 : Workspace :=
  { workspace_id := "tgt", base_api_url := "api/v1/workspaces/tgt", environment := "N/A",
    repository_items := [("Lakehouse", [("L", itemC9)])], deployed_items := [],
    environment_parameter := .absent, shell_only_types := [],
    ws_id_matches := fun s => [ContentPart.lit s] }

theorem creation_payload_republish_unbound_local_witness :
    publishItem wsC9 "L" "Lakehouse" (fun _ => false) none (some "enableSchemas") "zz" =
      .error (.unboundLocal "definition_body") :=
  (creation_payload_republish_unbound_local wsC9 "L" "Lakehouse" [("L", itemC9)] itemC9
    (fun _ => false) none (some "enableSchemas") "zz" rfl rfl rfl (by decide)).1
    (by decide) rfl

theorem updateDefinition_url_ne_items_url (base g : String) :
    base ++ "/items/" ++ g ++ "/updateDefinition?updateMetadata=True" ≠ base ++ "/items" := by
  intro h
  have hlen := congrArg String.length h
  simp only [String.length_append] at hlen
  have h1 : ("/items/" : String).length = 7 := by decide
  have h2 : ("/updateDefinition?updateMetadata=True" : String).length = 37 := by decide
  have h3 : ("/items" : String).length = 6 := by decide
  rw [h1, h2, h3] at hlen
  omega

/-- C1: publishing an item with an empty guid issues exactly one create
call (POST to base/items) and stores the server-returned id into the guid
of that item in the repository collection; publishing the same item again
issues no further create call and leaves the stored guid unchanged, so two
publishes are one create followed by one update. -/
theorem publish_create_then_update (ws : Workspace) (item_name item_type : String)
    (inner : List (String × Item)) (item : Item)
    (excludeMatch : String → Bool) (funcProcessFile : Option (Item → File → String))
    (newGuid newGuid2 : String) (r1 r2 : PublishResult)
    (hre : ws.publish_item_name_exclude_regex = none)
    (hty : dictGet ws.repository_items item_type = some inner)
    (hit : dictGet inner item_name = some item)
    (hguid : item.guid = "")
    (hng : newGuid ≠ "")
    (h1 : publishItem ws item_name item_type excludeMatch funcProcessFile none newGuid = .ok r1)
    (h2 : publishItem { ws with repository_items := r1.repository_items } item_name item_type
            excludeMatch funcProcessFile none newGuid2 = .ok r2) :
    (∃ b, r1.calls = [ApiCall.post (ws.base_api_url ++ "/items") b]) ∧
    (∃ inner1, dictGet r1.repository_items item_type = some inner1 ∧
      dictGet inner1 item_name = some { item with guid := newGuid }) ∧
    (∀ b, ApiCall.post (ws.base_api_url ++ "/items") b ∉ r2.calls) ∧
    (∃ inner2, dictGet r2.repository_items item_type = some inner2 ∧
      dictGet inner2 item_name = some { item with guid := newGuid }) := by
  have hfirst : r1.repository_items =
      dictSet ws.repository_items item_type
        (dictSet inner item_name { item with guid := newGuid }) ∧
      ∃ b, r1.calls = [ApiCall.post (ws.base_api_url ++ "/items") b] := by
    clear h2
    simp only [publishItem, hre, publishItemCore, hty, hit] at h1
    by_cases hshell : item_type ∈ ws.shell_only_types
    · simp [cpTruthy, hshell, hguid] at h1
      subst h1
      exact ⟨rfl, ⟨_, rfl⟩⟩
    · cases hbp : buildParts ws item funcProcessFile excludeMatch item.item_files with
      | error e =>
        rw [hbp] at h1
        simp [cpTruthy, hshell, hguid] at h1
      | ok parts =>
        rw [hbp] at h1
        simp [cpTruthy, hshell, hguid] at h1
        subst h1
        exact ⟨rfl, ⟨_, rfl⟩⟩
  obtain ⟨hrepo1, hcall1⟩ := hfirst
  have hinner1 : dictGet r1.repository_items item_type =
      some (dictSet inner item_name { item with guid := newGuid }) := by
    rw [hrepo1]
    exact dictGet_dictSet_self _ _ _ (by rw [hty]; rfl)
  have hitem1 : dictGet (dictSet inner item_name { item with guid := newGuid }) item_name =
      some { item with guid := newGuid } :=
    dictGet_dictSet_self _ _ _ (by rw [hit]; rfl)
  have hsec : (∀ b, ApiCall.post (ws.base_api_url ++ "/items") b ∉ r2.calls) ∧
      r2.repository_items = r1.repository_items := by
    simp only [publishItem, hre, publishItemCore, hinner1, hitem1] at h2
    by_cases hshell : item_type ∈ ws.shell_only_types
    · simp [cpTruthy, hshell, hng] at h2
      subst h2
      constructor
      · intro b hmem
        simp at hmem
      · rfl
    · cases hbp2 : buildParts
          { ws with
              repository_items := r1.repository_items
              publish_item_name_exclude_regex := none }
          { item with guid := newGuid } funcProcessFile excludeMatch item.item_files with
      | error e =>
        rw [hbp2] at h2
        simp [cpTruthy, hshell, hng] at h2
      | ok parts2 =>
        rw [hbp2] at h2
        simp [cpTruthy, hshell, hng] at h2
        subst h2
        constructor
        · intro b hmem
          simp at hmem
          exact updateDefinition_url_ne_items_url ws.base_api_url newGuid hmem.1.symm
        · rfl
  refine ⟨hcall1, ⟨_, hinner1, hitem1⟩, hsec.1, ⟨_, ?_, hitem1⟩⟩
  rw [hsec.2]
  exact hinner1

def itemW : Item :=
  { itype := "Notebook", name := "N", description := "", guid := "",
    logical_id := "lid-n", path := "p", item_files := [] }

def wsW : Workspace :=
  { workspace_id := "tgt-ws", base_api_url := "api/v1/workspaces/tgt-ws", environment := "N/A",
    repository_items := [("Notebook", [("N", itemW)])], deployed_items := [],
    environment_parameter := .absent, publish_item_name_exclude_regex := none,
    shell_only_types := [], ws_id_matches := fun s => [ContentPart.lit s] }

def r1W : PublishResult :=
  { repository_items := [("Notebook", [("N", { itemW with guid := "g-1" })])],
    calls := [ApiCall.post "api/v1/workspaces/tgt-ws/items"
      { displayName := some "N", itemType := some "Notebook", definition := some [] }] }

def r2W : PublishResult :=
  { repository_items := [("Notebook", [("N", { itemW with guid := "g-1" })])],
    calls := [ApiCall.post
      "api/v1/workspaces/tgt-ws/items/g-1/updateDefinition?updateMetadata=True"
      { definition := some [] }] }

theorem publish_create_then_update_witness :
    (∃ b, r1W.calls = [ApiCall.post (wsW.base_api_url ++ "/items") b]) ∧
    (∃ inner1, dictGet r1W.repository_items "Notebook" = some inner1 ∧
      dictGet inner1 "N" = some { itemW with guid := "g-1" }) ∧
    (∀ b, ApiCall.post (wsW.base_api_url ++ "/items") b ∉ r2W.calls) ∧
    (∃ inner2, dictGet r2W.repository_items "Notebook" = some inner2 ∧
      dictGet inner2 "N" = some { itemW with guid := "g-1" }) :=
  publish_create_then_update wsW "N" "Notebook" [("N", itemW)] itemW (fun _ => false) none
    "g-1" "g2" r1W r2W rfl rfl rfl rfl (by decide) rfl rfl
